import Mathlib

/-!
Verification development for the revm EVM core.

Shallow embedding of the repository's source files:
* `src/crates/primitives/src/state.rs`  — account data model (`Primitives` namespace);
* `src/src/evm.rs`                      — transaction driver and frame manager (`Evm` namespace);
* `src/crates/revm/src/instructions/system.rs` — call/create instruction fragments
  (`Interp` namespace).

256-bit words, addresses and hashes are embedded as `Nat` (the source never
overflows them in the fragments modelled here); `u64` quantities are `Nat`
with explicit two's-complement casts where the source casts; fallible
operations return `Except`/`Option`.
-/

namespace Revm

namespace Primitives

/-- Hash of empty code, `KECCAK_EMPTY` of the primitives crate
(`keccak256("")`), embedded as the 256-bit literal value. -/
def KECCAK_EMPTY : Nat :=
  0xc5d2460186f7233c927e7db2dcc703c0e500b653ca82273b7bfad8045d85a470

/-- `StorageSlot` of `state.rs` (lines 131-137). -/
structure StorageSlot where
  previous_or_original_value : Nat
  present_value : Nat
deriving DecidableEq, Repr

/-- `AccountInfo` of `state.rs` (lines 169-181): balance, nonce, code hash
and the optional cached bytecode. -/
structure AccountInfo where
  balance : Nat
  nonce : Nat
  code_hash : Nat
  code : Option (List Nat)
deriving DecidableEq, Repr

/-- `AccountInfo::is_empty` of `state.rs` (lines 224-227): code hash is zero
or `KECCAK_EMPTY`, and balance and nonce are zero. -/
def AccountInfo.is_empty (a : AccountInfo) : Bool :=
  let code_empty := a.code_hash == KECCAK_EMPTY || a.code_hash == 0
  a.balance == 0 && a.nonce == 0 && code_empty

/-- `PartialEq for AccountInfo` of `state.rs` (lines 194-200): compares
balance, nonce and code hash; the cached `code` field is ignored. -/
def AccountInfo.eq (a b : AccountInfo) : Bool :=
  a.balance == b.balance && a.nonce == b.nonce && a.code_hash == b.code_hash

/-- `Account` of `state.rs` (lines 14-23): info, storage cache and status
flags (the bitflags value embedded as a `Nat`). -/
structure Account where
  info : AccountInfo
  storage : List (Nat × StorageSlot)
  status : Nat
deriving DecidableEq, Repr

/-- `Account::is_empty` of `state.rs` (lines 107-109): delegates to the
info's `is_empty`. -/
def Account.is_empty (a : Account) : Bool :=
  a.info.is_empty

end Primitives

/-- Claim C8: an account is empty iff its balance is zero, its nonce is zero,
and its code hash is the all-zero hash or `KECCAK_EMPTY`. -/
theorem Primitives.account_is_empty_iff (a : Primitives.Account) :
    a.is_empty = true ↔
      a.info.balance = 0 ∧ a.info.nonce = 0 ∧
        (a.info.code_hash = 0 ∨ a.info.code_hash = Primitives.KECCAK_EMPTY) := by
  simp only [Primitives.Account.is_empty, Primitives.AccountInfo.is_empty,
    Bool.and_eq_true, Bool.or_eq_true, beq_iff_eq]
  tauto

/-- Claim C9: equality on `AccountInfo` compares exactly balance, nonce and
code hash, so two infos differing only in the cached `code` field are equal. -/
theorem Primitives.account_info_eq_ignores_code :
    (∀ a b : Primitives.AccountInfo,
        Primitives.AccountInfo.eq a b = true ↔
          a.balance = b.balance ∧ a.nonce = b.nonce ∧ a.code_hash = b.code_hash)
    ∧ (∀ (bal n h : Nat) (c c2 : Option (List Nat)),
        Primitives.AccountInfo.eq ⟨bal, n, h, c⟩ ⟨bal, n, h, c2⟩ = true) := by
  constructor
  · intro a b
    simp [Primitives.AccountInfo.eq, Bool.and_eq_true, beq_iff_eq, and_assoc]
  · intro bal n h c c2
    simp [Primitives.AccountInfo.eq]

namespace Evm

/-- Modelled from the spec: `ExitSucceed` lives in `error.rs`, which is not
under `src/`; spec section 6 lists the success reasons Stop, Return and
SelfDestruct, and the source uses `ExitSucceed::Returned`. -/
inductive ExitSucceed
  | Stopped
  | Returned
  | SelfDestructed
deriving DecidableEq, Repr

/-- Modelled from the spec: `ExitRevert` of the missing `error.rs`; spec
section 6 lists Revert, CallTooDeep and OutOfFund; the source uses
`ExitRevert::CallTooDeep` and `ExitRevert::OutOfFund`. -/
inductive ExitRevert
  | Reverted
  | CallTooDeep
  | OutOfFund
deriving DecidableEq, Repr

/-- Modelled from the spec: `ExitError` of the missing `error.rs`; spec
section 6 lists the halt reasons and spec section 4.8 additionally names
`IntrinsicGasTooLow`; the source uses `OutOfGas`, `CreateCollision` and
`CreateContractLimit`. -/
inductive ExitError
  | OutOfGas
  | StackOverflow
  | StackUnderflow
  | InvalidJump
  | InvalidOpcode
  | NotActivated
  | CreateCollision
  | CreateContractLimit
  | NonceOverflow
  | OutOfOffset
  | IntrinsicGasTooLow
deriving DecidableEq, Repr

/-- Modelled from the spec: `ExitReason` of the missing `error.rs`, the
three classes of spec section 7 (Success / Revert / Halt), as used
throughout `evm.rs`. -/
inductive ExitReason
  | Succeed (s : ExitSucceed)
  | Revert (r : ExitRevert)
  | Error (e : ExitError)
deriving DecidableEq, Repr

/-- Whether an exit reason is in the Succeed class. -/
def ExitReason.isSucceed : ExitReason → Bool
  | .Succeed _ => true
  | _ => false

/-- Whether an exit reason is in the Revert class. -/
def ExitReason.isRevert : ExitReason → Bool
  | .Revert _ => true
  | _ => false

/-- Modelled from the spec: the gas meter of `machine.rs` (not under `src/`),
spec section 4.1: limit, amount spent, and the signed refund counter. -/
structure Gas where
  limit : Nat
  used : Nat
  refunded : Int
deriving DecidableEq, Repr

/-- Modelled from the spec: `Gas::new` initializes the meter with a limit
and nothing spent. -/
def Gas.new (limit : Nat) : Gas := ⟨limit, 0, 0⟩

/-- Modelled from the spec: `Gas::record_cost` (spec section 4.1) charges a
cost, returning `false` and leaving the meter unchanged when the charge
would exceed the limit. -/
def Gas.record_cost (g : Gas) (cost : Nat) : Bool × Gas :=
  if g.limit < g.used + cost then (false, g)
  else (true, ⟨g.limit, g.used + cost, g.refunded⟩)

/-- Rust's `x as u64` applied to an `i64`: two's-complement reinterpretation,
used by `evm.rs` on `gas.refunded()`. -/
def u64_of_i64 (x : Int) : Nat := (x % (2 : Int) ^ 64).toNat

/-- Modelled from the spec: per-hardfork gas constants of the missing
`spec.rs`; spec section 4.8 fixes 21000 (call), 53000 (create), 4 per zero
byte, 16 per nonzero byte, 2400 per access-list address and 1900 per
access-list storage key. -/
def GAS_TRANSACTION_CALL : Nat := 21000

/-- Modelled from the spec: base intrinsic gas of a create transaction. -/
def GAS_TRANSACTION_CREATE : Nat := 53000

/-- Modelled from the spec: intrinsic gas per zero input byte. -/
def GAS_TRANSACTION_ZERO_DATA : Nat := 4

/-- Modelled from the spec: intrinsic gas per nonzero input byte. -/
def GAS_TRANSACTION_NON_ZERO_DATA : Nat := 16

/-- Modelled from the spec: intrinsic gas per access-list address. -/
def GAS_ACCESS_LIST_ADDRESS : Nat := 2400

/-- Modelled from the spec: intrinsic gas per access-list storage key. -/
def GAS_ACCESS_LIST_STORAGE_KEY : Nat := 1900

/-- Modelled from the spec: `SPEC::CALL_STACK_LIMIT` of the missing
`spec.rs`; spec sections 3 and 9 give the yellow-paper limit 1024. -/
def CALL_STACK_LIMIT : Nat := 1024

/-- Modelled from the spec: the `CODEDEPOSIT` gas constant of the missing
`opcode/gas.rs`; spec section 4.6 charges 200 per deployed code byte. -/
def CODEDEPOSIT : Nat := 200

/-- `EVM::initialization` of `evm.rs` (lines 176-213): intrinsic gas of a
transaction, as a function of the input bytes and the access list (the
account-warming side effects act on the journal and do not affect the
returned sum). -/
def initialization (is_create : Bool) (input : List Nat)
    (access_list : List (Nat × List Nat)) : Nat :=
  let zero_data_len := input.countP (· == 0)
  let non_zero_data_len := input.length - zero_data_len
  let accessed_accounts := access_list.length
  let accessed_slots := (access_list.map (fun p => p.2.length)).sum
  let transact := if is_create then GAS_TRANSACTION_CREATE else GAS_TRANSACTION_CALL
  transact
    + zero_data_len * GAS_TRANSACTION_ZERO_DATA
    + non_zero_data_len * GAS_TRANSACTION_NON_ZERO_DATA
    + accessed_accounts * GAS_ACCESS_LIST_ADDRESS
    + accessed_slots * GAS_ACCESS_LIST_STORAGE_KEY

/-- The gas-spend computation shared verbatim by `EVM::call` (lines 114-123)
and `EVM::create` (lines 159-168) of `evm.rs`: on Succeed the refund counter
is applied capped at half the gas used, on Revert the gas used is charged,
and on any other exit the full transaction gas limit is charged.  The
constant divisor is 2 on every spec; the source comments
"for london constant is 5 not 2". -/
def gas_spend (exit : ExitReason) (gas_limit gas_used_init all_used : Nat)
    (refunded : Int) : Nat :=
  match exit with
  | .Succeed _ =>
      let gs := all_used + gas_used_init
      gs - min (u64_of_i64 refunded) (gs / 2)
  | .Revert _ => all_used + gas_used_init
  | .Error _ => gas_limit

/-- The flattened state diff returned by the driver (`Map<H160, Account>`),
as an association list; the early-exit paths return `State::default()`. -/
def StateDiff : Type := List (Nat × Nat)

/-- `EVM::call` of `evm.rs` (lines 74-130), with the result of `call_inner`
(exit reason, machine gas `all_used`, refund counter, output bytes) and the
`finalize` output supplied as parameters (the machine and the journal
finalization live outside `src/`).  Returns (exit reason, output, gas spent,
state diff). -/
def call (gas_limit : Nat) (data : List Nat) (access_list : List (Nat × List Nat))
    (inner_exit : ExitReason) (inner_all_used : Nat) (inner_refunded : Int)
    (inner_bytes : List Nat) (finalized : StateDiff) :
    ExitReason × List Nat × Nat × StateDiff :=
  let gas_used_init := initialization false data access_list
  if gas_limit < gas_used_init then
    (.Error .OutOfGas, [], 0, [])
  else
    (inner_exit, inner_bytes,
      gas_spend inner_exit gas_limit gas_used_init inner_all_used inner_refunded,
      finalized)

/-- `EVM::create` of `evm.rs` (lines 132-174), with the result of
`create_inner` and the `finalize` output supplied as parameters.  Returns
(exit reason, created address, gas spent, state diff). -/
def create (gas_limit : Nat) (init_code : List Nat)
    (access_list : List (Nat × List Nat)) (inner_exit : ExitReason)
    (inner_all_used : Nat) (inner_refunded : Int) (inner_address : Option Nat)
    (finalized : StateDiff) : ExitReason × Option Nat × Nat × StateDiff :=
  let gas_used_init := initialization true init_code access_list
  if gas_limit < gas_used_init then
    (.Error .OutOfGas, none, 0, [])
  else
    (inner_exit, inner_address,
      gas_spend inner_exit gas_limit gas_used_init inner_all_used inner_refunded,
      finalized)

/-- The observable per-account journal state relevant to the frame manager:
balance, nonce and deployed code (`subroutine.rs` is not under `src/`; this
is the account view of spec section 3). -/
structure SubAcct where
  balance : Nat
  nonce : Nat
  code : List Nat
deriving DecidableEq, Repr

/-- The journal's account overlay: total map from addresses to accounts. -/
def SubState : Type := Nat → SubAcct

/-- Modelled from the spec: `SubRoutine::inc_nonce` (spec section 4.4)
increments the nonce of an address and leaves every other account and every
other field untouched. -/
def inc_nonce (s : SubState) (addr : Nat) : SubState :=
  fun a => if a = addr then ⟨(s addr).balance, (s addr).nonce + 1, (s addr).code⟩ else s a

/-- Modelled from the spec: `SubRoutine::transfer` (spec section 4.4), an
atomic debit/credit failing with `OutOfFund` when the source balance is
insufficient. -/
def transfer (s : SubState) (source target value : Nat) : Except ExitReason SubState :=
  if (s source).balance < value then .error (.Revert .OutOfFund)
  else
    let s1 : SubState :=
      fun a => if a = source then ⟨(s source).balance - value, (s source).nonce, (s source).code⟩ else s a
    .ok (fun a => if a = target then ⟨(s1 target).balance + value, (s1 target).nonce, (s1 target).code⟩ else s1 a)

/-- Modelled from the spec: `SubRoutine::set_code` (spec section 4.4)
assigns deployed code to an address. -/
def set_code (s : SubState) (addr : Nat) (code : List Nat) : SubState :=
  fun a => if a = addr then ⟨(s addr).balance, (s addr).nonce, code⟩ else s a

/-- Modelled from the spec: the collision test of
`SubRoutine::new_contract_acc` (spec section 4.6 step 4): the derived
address collides when it already has a nonzero nonce or non-empty code. -/
def collides (s : SubState) (addr : Nat) : Bool :=
  (s addr).nonce != 0 || !(s addr).code.isEmpty

/-- Output of one interpreter run of the init code (`Machine::run`, not
under `src/`): exit reason, resulting journal state, machine gas meter, and
`machine.return_value()`. -/
structure RunOut where
  exit : ExitReason
  state : SubState
  gas : Gas
  ret : List Nat

/-- Result of `EVM::create_inner`: exit reason, derived address, gas meter,
output bytes, and the resulting journal state. -/
structure CreateOut where
  exit : ExitReason
  address : Option Nat
  gas : Gas
  ret : List Nat
  state : SubState

/-- `EVM::create_inner` of `evm.rs` (lines 215-306) over the journal model:
depth check (`depth > CALL_STACK_LIMIT`), balance check, caller nonce
increment (before the checkpoint), address-collision check, value transfer,
optional nonce of the created account, init-code execution (the abstract
`run`), code-size limit and code-deposit charge.  Checkpoint revert restores
the snapshot taken after the caller's nonce increment (spec section 4.4:
after any revert, observable state equals state at checkpoint creation).
The derived address (keccak-based, `util.rs` not under `src/`) is the
parameter `created_address`; the interpreter execution is the parameter
`run`. -/
def create_inner (limit : Nat) (create_increase_nonce : Bool)
    (create_contract_limit : Option Nat) (run : SubState → RunOut)
    (s : SubState) (caller value created_address gas_limit depth : Nat) :
    CreateOut :=
  if limit < depth then
    ⟨.Revert .CallTooDeep, none, Gas.new gas_limit, [], s⟩
  else if (s caller).balance < value then
    ⟨.Revert .OutOfFund, none, Gas.new gas_limit, [], s⟩
  else if collides (inc_nonce s caller) created_address then
    ⟨.Error .CreateCollision, some created_address, Gas.new gas_limit, [], inc_nonce s caller⟩
  else
    match transfer (inc_nonce s caller) caller created_address value with
    | .error e => ⟨e, some created_address, Gas.new gas_limit, [], inc_nonce s caller⟩
    | .ok s2 =>
      match run (if create_increase_nonce then inc_nonce s2 created_address else s2) with
      | ⟨.Succeed _, st4, g4, ret⟩ =>
        if (match create_contract_limit with
            | some l => decide (l < ret.length)
            | none => false) then
          ⟨.Error .CreateContractLimit, some created_address, g4, [], inc_nonce s caller⟩
        else if (g4.record_cost (ret.length * CODEDEPOSIT)).1 = false then
          ⟨.Error .OutOfGas, some created_address,
            (g4.record_cost (ret.length * CODEDEPOSIT)).2, [], inc_nonce s caller⟩
        else
          ⟨.Succeed .Returned, some created_address,
            (g4.record_cost (ret.length * CODEDEPOSIT)).2, [],
            set_code st4 created_address ret⟩
      | ⟨e, _, g4, ret⟩ => ⟨e, some created_address, g4, ret, inc_nonce s caller⟩

/-- The depth guard of `EVM::call_inner` of `evm.rs` (lines 323-328): the
call path rejects only when `depth > CALL_STACK_LIMIT + 1` (the source's
geth-compatibility fudge), returning `CallTooDeep`; `none` means execution
proceeds past the guard. -/
def call_inner_depth_result (limit depth : Nat) : Option ExitReason :=
  if limit + 1 < depth then some (.Revert .CallTooDeep) else none

end Evm

namespace Interp

/-- Modelled from the spec: the interpreter's `Return` codes (the enum lives
outside `src/`); spec section 6 lists the halt reasons, and `system.rs` uses
`Continue`, `OutOfGas`, `StackUnderflow`, `CallNotAllowedInsideStatic`,
`OutOfOffset`, `SelfDestruct` and `FatalNotSupported`. -/
inductive Return
  | Continue
  | Stop
  | SelfDestruct
  | OutOfGas
  | StackUnderflow
  | StackOverflow
  | InvalidJump
  | InvalidOpcode
  | NotActivated
  | StateChangeDuringStaticCall
  | CallNotAllowedInsideStatic
  | OutOfOffset
  | FatalNotSupported
deriving DecidableEq, Repr

/-- `CallScheme` of the interpreter, as matched in `system.rs` `call`. -/
inductive CallScheme
  | Call
  | CallCode
  | DelegateCall
  | StaticCall
deriving DecidableEq, Repr

/-- The fields of `Contract` read by `system.rs` `call`: the executing
address, its caller, and its apparent value. -/
structure Contract where
  address : Nat
  caller : Nat
  value : Nat
deriving DecidableEq, Repr

/-- `CallContext` as constructed by `system.rs` `call` (lines 485-501). -/
structure CallContext where
  address : Nat
  caller : Nat
  apparent_value : Nat
deriving DecidableEq, Repr

/-- `Transfer` as constructed by `system.rs` `call` (lines 503-522). -/
structure Transfer where
  source : Nat
  target : Nat
  value : Nat
deriving DecidableEq, Repr

/-- The value-popping block of `system.rs` `call` (lines 450-463): `Call`
and `CallCode` pop a value operand from the stack (the `pop!` macro is not
under `src/`; per spec section 4.3 an empty stack underflows); a static
`Call` with nonzero value fails with `CallNotAllowedInsideStatic`;
`DelegateCall` and `StaticCall` pop nothing and use value zero. -/
def call_pop_value (scheme : CallScheme) (is_static : Bool) (stack : List Nat) :
    Except Return (Nat × List Nat) :=
  match scheme with
  | .CallCode =>
    match stack with
    | [] => .error .StackUnderflow
    | v :: rest => .ok (v, rest)
  | .Call =>
    match stack with
    | [] => .error .StackUnderflow
    | v :: rest =>
      if is_static && !(v == 0) then .error .CallNotAllowedInsideStatic
      else .ok (v, rest)
  | .DelegateCall => .ok (0, stack)
  | .StaticCall => .ok (0, stack)

/-- The `CallContext` construction of `system.rs` `call` (lines 485-501):
`DelegateCall` keeps the parent's caller and apparent value; `CallCode` runs
the target's code at the parent's address. -/
def call_context (scheme : CallScheme) (contract : Contract) (toAddr value : Nat) :
    CallContext :=
  match scheme with
  | .Call => ⟨toAddr, contract.address, value⟩
  | .StaticCall => ⟨toAddr, contract.address, value⟩
  | .CallCode => ⟨contract.address, contract.address, value⟩
  | .DelegateCall => ⟨contract.address, contract.caller, contract.value⟩

/-- The `Transfer` construction of `system.rs` `call` (lines 503-522):
`Call` moves the popped value to the target, `CallCode` moves it from the
contract to itself, and `DelegateCall`/`StaticCall` build the dummy
zero-value self transfer. -/
def call_transfer (scheme : CallScheme) (contract : Contract) (toAddr value : Nat) :
    Transfer :=
  match scheme with
  | .Call => ⟨contract.address, toAddr, value⟩
  | .CallCode => ⟨contract.address, contract.address, value⟩
  | .DelegateCall => ⟨contract.address, contract.address, 0⟩
  | .StaticCall => ⟨contract.address, contract.address, 0⟩

/-- `gas_call_l64_after` of `system.rs` (lines 353-362): post-Tangerine the
forwardable gas is `remaining - remaining/64`, before Tangerine it is the
full remaining gas (the source wraps the value in `Ok`, and no branch
errors). -/
def gas_call_l64_after (tangerine : Bool) (remaining : Nat) : Nat :=
  if tangerine then remaining - remaining / 64 else remaining

/-- Modelled from the spec: the `CALL_STIPEND` gas constant of the missing
`gas` module; spec section 4.6 step 2 gives the 2300 stipend. -/
def CALL_STIPEND : Nat := 2300

/-- The child gas-limit computation of `system.rs` `call` (lines 539-548):
`min` of the 63/64-reduced remaining gas (remaining is the caller's gas
after the call cost was charged) and the popped local gas limit, plus the
2300 stipend when the scheme is `Call` or `CallCode` and the transfer value
is nonzero (`saturating_add` never overflows over `Nat`). -/
def call_gas_limit_forwarded (tangerine : Bool) (scheme : CallScheme)
    (contract : Contract) (toAddr value remaining local_gas_limit : Nat) : Nat :=
  let t := call_transfer scheme contract toAddr value
  let global_gas_limit := gas_call_l64_after tangerine remaining
  let gas_limit := min global_gas_limit local_gas_limit
  let is_transfer_call :=
    match scheme with
    | .Call => true
    | .CallCode => true
    | _ => false
  if is_transfer_call && !(t.value == 0) then gas_limit + CALL_STIPEND
  else gas_limit

/-- `sstore` of `system.rs` (lines 275-296): the leading
`check!(!SPEC::IS_STATIC_CALL)` guard, with the remaining body (stack pops,
host sstore, gas and refund) abstracted as `body`.  Modelled from the spec:
the `check!` macro lives outside `src/`; per spec section 4.5 a static-flag
violation fails with `StateChangeDuringStaticCall`, and per section 5 the
guard precedes every side effect, so the state is returned unchanged. -/
def sstore {σ : Type} (is_static : Bool) (body : σ → Return × σ) (st : σ) :
    Return × σ :=
  if is_static then (.StateChangeDuringStaticCall, st) else body st

/-- `log` of `system.rs` (lines 307-335): the leading static guard with the
body (pops, topics, host log) abstracted; see `sstore` for the modelling of
`check!`. -/
def log {σ : Type} (is_static : Bool) (n : Nat) (body : σ → Return × σ)
    (st : σ) : Return × σ :=
  if is_static then (.StateChangeDuringStaticCall, st) else body st

/-- `selfdestruct` of `system.rs` (lines 338-351): the leading static guard
with the body abstracted; see `sstore` for the modelling of `check!`. -/
def selfdestruct {σ : Type} (is_static : Bool) (body : σ → Return × σ)
    (st : σ) : Return × σ :=
  if is_static then (.StateChangeDuringStaticCall, st) else body st

/-- `create` of `system.rs` (lines 365-427): the leading static guard, then
for CREATE2 the Constantinople activation guard (`check!` on a disabled
feature fails with `NotActivated` per spec section 6), with the body
abstracted. -/
def create {σ : Type} (is_static is_create2 constantinople : Bool)
    (body : σ → Return × σ) (st : σ) : Return × σ :=
  if is_static then (.StateChangeDuringStaticCall, st)
  else if is_create2 && !constantinople then (.NotActivated, st)
  else body st

end Interp

/-- Claim C1 (evaluation at the failing input): on a successful exit
`evm.rs` caps the applied refund at half the gas used on every spec, London
included (the divisor 2 is hard-coded; the source comment notes London's
constant is 5): with intrinsic gas 8, machine gas 2 (so gas used 10) and
refund counter 5, the driver reports 5, whereas the claimed post-London cap
of `gas_used / 5` would report 8. -/
theorem Evm.refund_cap_is_half_on_every_spec :
    Evm.gas_spend (.Succeed .Returned) 100 8 2 5 = 5 ∧
      (2 + 8) - min (Evm.u64_of_i64 5) ((2 + 8) / 5) = 8 ∧ (5 : Nat) ≠ 8 := by
  decide

/-- Claim C2 (counterexample): a call at subroutine depth 1025 exceeds 1024
yet passes the depth guard of `call_inner` (which rejects only above
`CALL_STACK_LIMIT + 1`), so it does not fail with `CallTooDeep`. -/
theorem Evm.call_depth_1025_passes_guard :
    Evm.call_inner_depth_result Evm.CALL_STACK_LIMIT 1025 = none ∧
      Evm.CALL_STACK_LIMIT < 1025 := by
  decide

/-- Claim C2 (amended): `call_inner` fails with `CallTooDeep` exactly when
the depth exceeds `CALL_STACK_LIMIT + 1 = 1025` (the source's geth
compatibility fudge), while `create_inner` rejects any depth above
`CALL_STACK_LIMIT = 1024` before any state mutation. -/
theorem Evm.depth_guard_amended (dCall dCreate : Nat) (incN : Bool)
    (climit : Option Nat) (run : Evm.SubState → Evm.RunOut) (s : Evm.SubState)
    (caller value addr gl : Nat) (h : Evm.CALL_STACK_LIMIT < dCreate) :
    (Evm.call_inner_depth_result Evm.CALL_STACK_LIMIT dCall
        = some (.Revert .CallTooDeep) ↔ Evm.CALL_STACK_LIMIT + 1 < dCall) ∧
      Evm.create_inner Evm.CALL_STACK_LIMIT incN climit run s caller value addr gl dCreate
        = ⟨.Revert .CallTooDeep, none, Evm.Gas.new gl, [], s⟩ := by
  constructor
  · by_cases hd : Evm.CALL_STACK_LIMIT + 1 < dCall <;>
      simp [Evm.call_inner_depth_result, hd]
  · unfold Evm.create_inner
    rw [if_pos h]

/-- Witness for the amended depth-limit theorem at depth 0 (call) and 1025
(create). -/
theorem Evm.depth_guard_amended_witness :
    (Evm.call_inner_depth_result Evm.CALL_STACK_LIMIT 0
        = some (.Revert .CallTooDeep) ↔ Evm.CALL_STACK_LIMIT + 1 < 0) ∧
      Evm.create_inner Evm.CALL_STACK_LIMIT true none
          (fun st => ⟨.Succeed .Returned, st, Evm.Gas.new 0, []⟩)
          (fun _ => ⟨0, 0, []⟩) 0 0 0 7 1025
        = ⟨.Revert .CallTooDeep, none, Evm.Gas.new 7, [], fun _ => ⟨0, 0, []⟩⟩ :=
  Evm.depth_guard_amended 0 1025 true none
    (fun st => ⟨.Succeed .Returned, st, Evm.Gas.new 0, []⟩)
    (fun _ => ⟨0, 0, []⟩) 0 0 0 7 (by decide)

/-- Claim C3 (counterexample): a call whose gas limit is below the intrinsic
gas fails with `OutOfGas`, not with `IntrinsicGasTooLow`. -/
theorem Evm.intrinsic_shortfall_error_is_out_of_gas :
    Evm.call 0 [] [] (.Succeed .Returned) 0 0 [] []
        = (.Error .OutOfGas, [], 0, ([] : Evm.StateDiff)) ∧
      Evm.ExitError.OutOfGas ≠ Evm.ExitError.IntrinsicGasTooLow :=
  ⟨rfl, by decide⟩

/-- Claim C3 (amended): intrinsic gas is the base charge (21000 call, 53000
create) plus 4 per zero byte, 16 per nonzero byte, 2400 per access-list
address and 1900 per access-list slot; a transaction whose gas limit is
below it fails with `Error(OutOfGas)`, reporting zero gas used and an empty
state diff. -/
theorem Evm.intrinsic_gas_amended (glc glk : Nat) (data icode : List Nat)
    (al al2 : List (Nat × List Nat)) (e e2 : Evm.ExitReason) (au au2 : Nat)
    (r r2 : Int) (b : List Nat) (ao : Option Nat) (fl fl2 : Evm.StateDiff)
    (h1 : glc < Evm.initialization false data al)
    (h2 : glk < Evm.initialization true icode al2) :
    (∀ (isC : Bool) (d : List Nat) (a : List (Nat × List Nat)),
        Evm.initialization isC d a
          = (if isC then 53000 else 21000) + (d.countP (· == 0)) * 4
            + (d.length - d.countP (· == 0)) * 16 + a.length * 2400
            + ((a.map (fun p => p.2.length)).sum) * 1900)
    ∧ Evm.call glc data al e au r b fl = (.Error .OutOfGas, [], 0, [])
    ∧ Evm.create glk icode al2 e2 au2 r2 ao fl2 = (.Error .OutOfGas, none, 0, []) := by
  refine ⟨fun isC d a => rfl, ?_, ?_⟩
  · unfold Evm.call
    rw [if_pos h1]
  · unfold Evm.create
    rw [if_pos h2]

/-- Witness for the amended intrinsic-gas theorem at gas limit 0 with empty
input and access list. -/
theorem Evm.intrinsic_gas_amended_witness :
    (∀ (isC : Bool) (d : List Nat) (a : List (Nat × List Nat)),
        Evm.initialization isC d a
          = (if isC then 53000 else 21000) + (d.countP (· == 0)) * 4
            + (d.length - d.countP (· == 0)) * 16 + a.length * 2400
            + ((a.map (fun p => p.2.length)).sum) * 1900)
    ∧ Evm.call 0 [] [] (.Succeed .Stopped) 0 0 [] [] = (.Error .OutOfGas, [], 0, [])
    ∧ Evm.create 0 [] [] (.Succeed .Stopped) 0 0 none [] = (.Error .OutOfGas, none, 0, []) :=
  Evm.intrinsic_gas_amended 0 0 [] [] [] [] (.Succeed .Stopped) (.Succeed .Stopped)
    0 0 0 0 [] none [] [] (by decide) (by decide)

/-- Claim C4: when the top-level frame exits with a reason that is neither
Succeed nor Revert, the driver reports the full transaction gas limit as
gas used, for both the call and the create entry points. -/
theorem Evm.halt_consumes_all_gas (data icode : List Nat)
    (al al2 : List (Nat × List Nat)) (e : Evm.ExitReason) (glc glk au au2 : Nat)
    (r r2 : Int) (b : List Nat) (ao : Option Nat) (fl fl2 : Evm.StateDiff)
    (h0 : Evm.initialization false data al ≤ glc)
    (h0k : Evm.initialization true icode al2 ≤ glk)
    (h1 : e.isSucceed = false) (h2 : e.isRevert = false) :
    (Evm.call glc data al e au r b fl).2.2.1 = glc ∧
      (Evm.create glk icode al2 e au2 r2 ao fl2).2.2.1 = glk := by
  cases e with
  | Succeed s => simp [Evm.ExitReason.isSucceed] at h1
  | Revert rr => simp [Evm.ExitReason.isRevert] at h2
  | Error err =>
    constructor
    · unfold Evm.call
      dsimp only
      rw [if_neg (by omega : ¬ glc < Evm.initialization false data al)]
      rfl
    · unfold Evm.create
      dsimp only
      rw [if_neg (by omega : ¬ glk < Evm.initialization true icode al2)]
      rfl

/-- Witness for the halt gas theorem at a top-level `OutOfGas` halt. -/
theorem Evm.halt_consumes_all_gas_witness :
    (Evm.call 60000 [] [] (.Error .OutOfGas) 9 0 [] []).2.2.1 = 60000 ∧
      (Evm.create 60000 [] [] (.Error .OutOfGas) 9 0 none []).2.2.1 = 60000 :=
  Evm.halt_consumes_all_gas [] [] [] [] (.Error .OutOfGas) 60000 60000 9 9 0 0
    [] none [] [] (by decide) (by decide) rfl rfl

/-- Once `create_inner` is past its depth and balance guards, its final
journal state is either the checkpoint snapshot (the state with the
caller's nonce already incremented) or the commit of a fully successful
creation. -/
theorem Evm.create_inner_state_cases (limit : Nat) (incN : Bool)
    (climit : Option Nat) (run : Evm.SubState → Evm.RunOut) (s : Evm.SubState)
    (caller value addr gl depth : Nat)
    (h1 : ¬ limit < depth) (h2 : ¬ (s caller).balance < value) :
    (Evm.create_inner limit incN climit run s caller value addr gl depth).state
        = Evm.inc_nonce s caller ∨
      (Evm.create_inner limit incN climit run s caller value addr gl depth).exit
        = .Succeed .Returned := by
  unfold Evm.create_inner
  rw [if_neg h1, if_neg h2]
  by_cases hc : Evm.collides (Evm.inc_nonce s caller) addr = true
  · rw [if_pos hc]
    exact Or.inl rfl
  · rw [if_neg hc]
    rcases htr : Evm.transfer (Evm.inc_nonce s caller) caller addr value with e | s2
    · simp [htr]
    · simp only [htr]
      rcases hr : run (if incN then Evm.inc_nonce s2 addr else s2) with ⟨ex, st4, g4, ret⟩
      cases ex with
      | Succeed ss =>
        dsimp only
        by_cases hl : (match climit with
            | some l => decide (l < ret.length)
            | none => false) = true
        · rw [if_pos hl]
          exact Or.inl rfl
        · rw [if_neg hl]
          by_cases hg : (g4.record_cost (ret.length * Evm.CODEDEPOSIT)).1 = false
          · rw [if_pos hg]
            exact Or.inl rfl
          · rw [if_neg hg]
            exact Or.inr rfl
      | Revert rr => exact Or.inl rfl
      | Error er => exact Or.inl rfl

/-- Claim C10: in `create_inner` the caller's nonce is incremented before
the journal checkpoint, so whenever a create that passed the depth and
balance guards fails (collision, transfer failure, or a failing init-code
run), the checkpoint revert restores every account except that the caller's
nonce increment persists. -/
theorem Evm.create_nonce_persists_on_failure (limit : Nat) (incN : Bool)
    (climit : Option Nat) (run : Evm.SubState → Evm.RunOut) (s : Evm.SubState)
    (caller value addr gl depth : Nat)
    (hdepth : ¬ limit < depth) (hbal : ¬ (s caller).balance < value)
    (hfail : (Evm.create_inner limit incN climit run s caller value addr gl
        depth).exit.isSucceed = false) :
    (∀ a, a ≠ caller →
        (Evm.create_inner limit incN climit run s caller value addr gl depth).state a
          = s a)
    ∧ (Evm.create_inner limit incN climit run s caller value addr gl depth).state caller
        = ⟨(s caller).balance, (s caller).nonce + 1, (s caller).code⟩ := by
  rcases Evm.create_inner_state_cases limit incN climit run s caller value addr gl depth
      hdepth hbal with hst | hex
  · rw [hst]
    constructor
    · intro a ha
      simp [Evm.inc_nonce, ha]
    · simp [Evm.inc_nonce]
  · rw [hex] at hfail
    simp [Evm.ExitReason.isSucceed] at hfail

/-- Witness for the nonce-persistence theorem: caller 1 with balance 10 and
nonce 0 creates at address 2 with value 3; the init code halts with
`OutOfGas`; afterwards every address other than 1 is untouched and address
1 kept balance 10 but nonce 1. -/
theorem Evm.create_nonce_persists_on_failure_witness :
    (∀ a, a ≠ 1 →
        (Evm.create_inner 1024 true (some 24576)
            (fun st => ⟨.Error .OutOfGas, st, Evm.Gas.new 0, []⟩)
            (fun _ => ⟨10, 0, []⟩) 1 3 2 50 0).state a = ⟨10, 0, []⟩)
    ∧ (Evm.create_inner 1024 true (some 24576)
          (fun st => ⟨.Error .OutOfGas, st, Evm.Gas.new 0, []⟩)
          (fun _ => ⟨10, 0, []⟩) 1 3 2 50 0).state 1 = ⟨10, 1, []⟩ :=
  Evm.create_nonce_persists_on_failure 1024 true (some 24576)
    (fun st => ⟨.Error .OutOfGas, st, Evm.Gas.new 0, []⟩)
    (fun _ => ⟨10, 0, []⟩) 1 3 2 50 0 (by decide) (by decide) (by decide)

/-- Claim C5 (counterexample): a post-Tangerine CALL with value 1, remaining
gas 6400 (after the call cost) and local gas limit 100000 forwards
6300 + 2300 = 8600 gas to the child because of the stipend, not the claimed
`min(local, remaining - remaining/64) = 6300`. -/
theorem Interp.forwarded_gas_exceeds_l64_cap :
    Interp.call_gas_limit_forwarded true .Call ⟨0, 0, 0⟩ 7 1 6400 100000 = 8600 ∧
      min (6400 - 6400 / 64) 100000 = 6300 ∧ (8600 : Nat) ≠ 6300 := by
  decide

/-- Claim C5 (amended): the gas forwarded to the child is
`min(remaining - remaining/64, local)` post-Tangerine and
`min(remaining, local)` before, plus the 2300 call stipend exactly when the
scheme is Call or CallCode and the transferred value is nonzero. -/
theorem Interp.forwarded_gas_amended (c : Interp.Contract)
    (toAddr v rem localGas : Nat) (hv : v ≠ 0) :
    (Interp.call_gas_limit_forwarded true .StaticCall c toAddr v rem localGas
        = min (rem - rem / 64) localGas)
    ∧ (Interp.call_gas_limit_forwarded true .DelegateCall c toAddr v rem localGas
        = min (rem - rem / 64) localGas)
    ∧ (Interp.call_gas_limit_forwarded true .Call c toAddr 0 rem localGas
        = min (rem - rem / 64) localGas)
    ∧ (Interp.call_gas_limit_forwarded true .CallCode c toAddr 0 rem localGas
        = min (rem - rem / 64) localGas)
    ∧ (Interp.call_gas_limit_forwarded true .Call c toAddr v rem localGas
        = min (rem - rem / 64) localGas + Interp.CALL_STIPEND)
    ∧ (Interp.call_gas_limit_forwarded true .CallCode c toAddr v rem localGas
        = min (rem - rem / 64) localGas + Interp.CALL_STIPEND)
    ∧ (Interp.call_gas_limit_forwarded false .StaticCall c toAddr v rem localGas
        = min rem localGas)
    ∧ (Interp.call_gas_limit_forwarded false .Call c toAddr 0 rem localGas
        = min rem localGas)
    ∧ (Interp.call_gas_limit_forwarded false .Call c toAddr v rem localGas
        = min rem localGas + Interp.CALL_STIPEND) := by
  refine ⟨rfl, rfl, rfl, rfl, ?_, ?_, rfl, rfl, ?_⟩
  all_goals
    simp [Interp.call_gas_limit_forwarded, Interp.call_transfer,
      Interp.gas_call_l64_after, hv]

/-- Witness for the amended forwarded-gas theorem at value 1, remaining
6400, local limit 100000. -/
theorem Interp.forwarded_gas_amended_witness :
    (Interp.call_gas_limit_forwarded true .StaticCall ⟨0, 0, 0⟩ 7 1 6400 100000
        = min (6400 - 6400 / 64) 100000)
    ∧ (Interp.call_gas_limit_forwarded true .DelegateCall ⟨0, 0, 0⟩ 7 1 6400 100000
        = min (6400 - 6400 / 64) 100000)
    ∧ (Interp.call_gas_limit_forwarded true .Call ⟨0, 0, 0⟩ 7 0 6400 100000
        = min (6400 - 6400 / 64) 100000)
    ∧ (Interp.call_gas_limit_forwarded true .CallCode ⟨0, 0, 0⟩ 7 0 6400 100000
        = min (6400 - 6400 / 64) 100000)
    ∧ (Interp.call_gas_limit_forwarded true .Call ⟨0, 0, 0⟩ 7 1 6400 100000
        = min (6400 - 6400 / 64) 100000 + Interp.CALL_STIPEND)
    ∧ (Interp.call_gas_limit_forwarded true .CallCode ⟨0, 0, 0⟩ 7 1 6400 100000
        = min (6400 - 6400 / 64) 100000 + Interp.CALL_STIPEND)
    ∧ (Interp.call_gas_limit_forwarded false .StaticCall ⟨0, 0, 0⟩ 7 1 6400 100000
        = min 6400 100000)
    ∧ (Interp.call_gas_limit_forwarded false .Call ⟨0, 0, 0⟩ 7 0 6400 100000
        = min 6400 100000)
    ∧ (Interp.call_gas_limit_forwarded false .Call ⟨0, 0, 0⟩ 7 1 6400 100000
        = min 6400 100000 + Interp.CALL_STIPEND) :=
  Interp.forwarded_gas_amended ⟨0, 0, 0⟩ 7 1 6400 100000 (by decide)

/-- Claim C6 (counterexample): a CALL with nonzero value inside a static
frame fails with `CallNotAllowedInsideStatic`, which is a different code
from the claimed `StateChangeDuringStaticCall`. -/
theorem Interp.static_call_value_error_is_distinct :
    Interp.call_pop_value .Call true [1] = .error .CallNotAllowedInsideStatic ∧
      Interp.Return.CallNotAllowedInsideStatic ≠ Interp.Return.StateChangeDuringStaticCall :=
  ⟨rfl, by decide⟩

/-- Claim C6 (amended): in a static frame SSTORE, LOG0..LOG4, SELFDESTRUCT,
CREATE and CREATE2 fail with `StateChangeDuringStaticCall` with the state
untouched, while CALL with nonzero value fails with
`CallNotAllowedInsideStatic` before any host interaction. -/
theorem Interp.static_guards_amended (v : Nat) (hv : v ≠ 0) :
    (∀ (σ : Type) (body : σ → Interp.Return × σ) (st : σ),
        Interp.sstore true body st = (.StateChangeDuringStaticCall, st))
    ∧ (∀ (σ : Type) (n : Nat) (body : σ → Interp.Return × σ) (st : σ),
        Interp.log true n body st = (.StateChangeDuringStaticCall, st))
    ∧ (∀ (σ : Type) (body : σ → Interp.Return × σ) (st : σ),
        Interp.selfdestruct true body st = (.StateChangeDuringStaticCall, st))
    ∧ (∀ (σ : Type) (is_create2 constantinople : Bool)
          (body : σ → Interp.Return × σ) (st : σ),
        Interp.create true is_create2 constantinople body st
          = (.StateChangeDuringStaticCall, st))
    ∧ (∀ stack : List Nat,
        Interp.call_pop_value .Call true (v :: stack)
          = .error .CallNotAllowedInsideStatic) := by
  refine ⟨fun σ body st => rfl, fun σ n body st => rfl, fun σ body st => rfl,
    fun σ i2 cm body st => rfl, fun stack => ?_⟩
  simp [Interp.call_pop_value, hv]

/-- Witness for the amended static-guard theorem at value 1. -/
theorem Interp.static_guards_amended_witness :
    (∀ (σ : Type) (body : σ → Interp.Return × σ) (st : σ),
        Interp.sstore true body st = (.StateChangeDuringStaticCall, st))
    ∧ (∀ (σ : Type) (n : Nat) (body : σ → Interp.Return × σ) (st : σ),
        Interp.log true n body st = (.StateChangeDuringStaticCall, st))
    ∧ (∀ (σ : Type) (body : σ → Interp.Return × σ) (st : σ),
        Interp.selfdestruct true body st = (.StateChangeDuringStaticCall, st))
    ∧ (∀ (σ : Type) (is_create2 constantinople : Bool)
          (body : σ → Interp.Return × σ) (st : σ),
        Interp.create true is_create2 constantinople body st
          = (.StateChangeDuringStaticCall, st))
    ∧ (∀ stack : List Nat,
        Interp.call_pop_value .Call true (1 :: stack)
          = .error .CallNotAllowedInsideStatic) :=
  Interp.static_guards_amended 1 (by decide)

/-- Claim C7: DelegateCall's child context keeps the parent's caller and
apparent value; DelegateCall and StaticCall build the dummy zero-value
self transfer and pop no value operand; only Call and CallCode pop a value
and build a transfer carrying it. -/
theorem Interp.delegatecall_context_and_transfers (c : Interp.Contract)
    (toAddr v : Nat) (is_static : Bool) (stack : List Nat) :
    ((Interp.call_context .DelegateCall c toAddr v).caller = c.caller
      ∧ (Interp.call_context .DelegateCall c toAddr v).apparent_value = c.value)
    ∧ Interp.call_transfer .DelegateCall c toAddr v = ⟨c.address, c.address, 0⟩
    ∧ Interp.call_transfer .StaticCall c toAddr v = ⟨c.address, c.address, 0⟩
    ∧ Interp.call_pop_value .DelegateCall is_static stack = .ok (0, stack)
    ∧ Interp.call_pop_value .StaticCall is_static stack = .ok (0, stack)
    ∧ Interp.call_pop_value .Call false (v :: stack) = .ok (v, stack)
    ∧ Interp.call_pop_value .CallCode is_static (v :: stack) = .ok (v, stack)
    ∧ Interp.call_transfer .Call c toAddr v = ⟨c.address, toAddr, v⟩
    ∧ Interp.call_transfer .CallCode c toAddr v = ⟨c.address, c.address, v⟩ :=
  ⟨⟨rfl, rfl⟩, rfl, rfl, rfl, rfl, rfl, rfl, rfl, rfl⟩

end Revm
